import Mathlib

/-!
Verification of the status-polling engine with adaptive backoff and
workflow-state derivation of the devin-automation dashboard.

The development shallowly embeds:
* `deriveWorkflowStatus` / `deriveScopeStatus` / `deriveExecuteStatus` /
  `getBlockingReason` (lib/workflowStatus.ts),
* the two backoff calculators `calculateBackoff` and `calculateBackoffDelay`
  and the two `usePollingWithBackoff` hook variants (lib/usePollingWithBackoff.ts),
  modelled as explicit state machines with the browser's pending timers and
  intervals carried in the state,
* the `SessionStatus` / `StatusStrip` components' raw-status stop condition
  (`TERMINAL_STATUSES` / `shouldStopPolling`) and the `StatusStrip` aggregation
  (attention-message selection and detail truncation).

JavaScript conventions kept by the embedding: `null`/`undefined` become
`Option`, string truthiness (`""` is falsy) is modelled explicitly, machine
arithmetic on small integer millisecond delays is modelled on `Nat`, and each
React state update is applied sequentially in program order.
-/

namespace DevinAutomation

/-- JSON-like values stored in a session's `structured_output` mapping
(`Record<string, unknown>` in the source). -/
inductive JVal where
  | str (s : String)
  | boolean (b : Bool)
  | num (n : Int)
  | jnull
  | other
deriving DecidableEq, Repr

/-- A `structured_output` mapping: association list of field name / value. -/
def StructuredOutput := List (String × JVal)
deriving DecidableEq, Repr

/-- JS property read `output.key`: first binding wins, absent keys read as
`undefined` (here `none`). -/
def getField (o : StructuredOutput) (k : String) : Option JVal :=
  (List.find? (fun p => p.1 == k) o).map (fun p => p.2)

/-- JS test `typeof v === 'string' && v`: the value is a string and truthy,
i.e. non-empty. -/
def asNonemptyStr (v : Option JVal) : Option String :=
  match v with
  | some (.str s) => if s = "" then none else some s
  | _ => none

/-- JS truthiness of a `string | null | undefined` value. -/
def jsTruthyStr (v : Option String) : Bool :=
  match v with
  | some s => s != ""
  | none => false

/-- `WorkflowKind` from lib/workflowStatus.ts. -/
inductive WorkflowKind where
  | pending
  | active
  | success
  | warning
  | error
deriving DecidableEq, Repr

/-- `WorkflowStatus` from lib/workflowStatus.ts. -/
structure WorkflowStatus where
  label : String
  kind : WorkflowKind
  detail : Option String := none
  isTerminal : Bool
  needsAttention : Bool
deriving DecidableEq, Repr

/-- Session kind: the `type: 'scope' | 'execute'` argument. -/
inductive SessionKind where
  | scope
  | execute
deriving DecidableEq, Repr

/-- `getBlockingReason` (lib/workflowStatus.ts): extracts a blocking reason
from execute-session structured output.  Mirrors the source's three `typeof`
guarded checks in order. -/
def getBlockingReason (output : Option StructuredOutput) : Option String :=
  match output with
  | none => none
  | some o =>
    match asNonemptyStr (getField o "blocking_issue") with
    | some s => some s
    | none =>
      match asNonemptyStr (getField o "needs_input") with
      | some s => some s
      | none =>
        match getField o "current_task", getField o "needs_human_input" with
        | some (.str s), some (.boolean true) => some s
        | _, _ => none

/-- JS `blockingReason || 'Waiting for user input'` (an empty extracted
reason is falsy and also falls back to the default). -/
def blockingReasonOrDefault (r : Option String) : String :=
  match r with
  | some s => if s = "" then "Waiting for user input" else s
  | none => "Waiting for user input"

/-- `deriveScopeStatus` (lib/workflowStatus.ts): the `switch (statusEnum)`
for scope sessions, written as the equivalent equality chain. -/
def deriveScopeStatus (statusEnum : String)
    (structuredOutput : Option StructuredOutput) : WorkflowStatus :=
  if statusEnum = "queued" ∨ statusEnum = "pending" then
    { label := "Queued", kind := .pending, isTerminal := false, needsAttention := false }
  else if statusEnum = "running" then
    { label := "Scoping…", kind := .active, isTerminal := false, needsAttention := false }
  else if statusEnum = "blocked" then
    -- scope sessions go to "blocked" when done outputting but awaiting execute
    if structuredOutput.isSome then
      { label := "Awaiting approval", kind := .success,
        detail := some "Scope complete — ready to execute",
        isTerminal := true, needsAttention := false }
    else
      { label := "Processing…", kind := .active, isTerminal := false, needsAttention := false }
  else if statusEnum = "paused" then
    { label := "Paused", kind := .warning, isTerminal := false, needsAttention := true }
  else if statusEnum = "finished" then
    { label := "Scoped", kind := .success, isTerminal := true, needsAttention := false }
  else if statusEnum = "failed" then
    { label := "Scope failed", kind := .error, isTerminal := true, needsAttention := true }
  else if statusEnum = "cancelled" then
    { label := "Cancelled", kind := .error, isTerminal := true, needsAttention := false }
  else if statusEnum = "expired" then
    { label := "Expired", kind := .error, isTerminal := true, needsAttention := false }
  else
    { label := statusEnum, kind := .pending, isTerminal := false, needsAttention := false }

/-- `deriveExecuteStatus` (lib/workflowStatus.ts). -/
def deriveExecuteStatus (statusEnum : String)
    (structuredOutput : Option StructuredOutput)
    (pullRequestUrl : Option String) : WorkflowStatus :=
  if statusEnum = "queued" ∨ statusEnum = "pending" then
    { label := "Queued", kind := .pending, isTerminal := false, needsAttention := false }
  else if statusEnum = "running" then
    { label := "Executing…", kind := .active, isTerminal := false, needsAttention := false }
  else if statusEnum = "blocked" then
    -- execute blocked is a true blocked state - needs user input
    { label := "Needs input", kind := .warning,
      detail := some (blockingReasonOrDefault (getBlockingReason structuredOutput)),
      isTerminal := false, needsAttention := true }
  else if statusEnum = "paused" then
    { label := "Paused", kind := .warning, isTerminal := false, needsAttention := true }
  else if statusEnum = "finished" then
    if jsTruthyStr pullRequestUrl then
      { label := "PR ready", kind := .success, detail := some "Pull request created",
        isTerminal := true, needsAttention := false }
    else
      { label := "Completed", kind := .success, isTerminal := true, needsAttention := false }
  else if statusEnum = "failed" then
    { label := "Execute failed", kind := .error, isTerminal := true, needsAttention := true }
  else if statusEnum = "cancelled" then
    { label := "Cancelled", kind := .error, isTerminal := true, needsAttention := false }
  else if statusEnum = "expired" then
    { label := "Expired", kind := .error, isTerminal := true, needsAttention := false }
  else
    { label := statusEnum, kind := .pending, isTerminal := false, needsAttention := false }

/-- `deriveWorkflowStatus` (lib/workflowStatus.ts).  The source's
`if (!statusEnum)` guard is falsiness on a `string | null`, so both `null`
and the empty string take the "Not started" branch. -/
def deriveWorkflowStatus (type : SessionKind) (statusEnum : Option String)
    (structuredOutput : Option StructuredOutput)
    (pullRequestUrl : Option String) : WorkflowStatus :=
  if ¬ jsTruthyStr statusEnum then
    { label := "Not started", kind := .pending, isTerminal := true, needsAttention := false }
  else
    match statusEnum, type with
    | some st, .scope => deriveScopeStatus st structuredOutput
    | some st, .execute => deriveExecuteStatus st structuredOutput pullRequestUrl
    | none, _ =>
      { label := "Not started", kind := .pending, isTerminal := true, needsAttention := false }

/-- The known raw status enumeration (README "Session States" table plus the
`queued` alias handled by the deriver). -/
def knownStatuses : List String :=
  ["pending", "queued", "running", "blocked", "paused",
   "finished", "failed", "cancelled", "expired"]

/-! ### Backoff calculators -/

/-- `calculateBackoff` (first `usePollingWithBackoff` variant):
`min(maxBackoff, baseInterval * 2^failureCount)`. -/
def calculateBackoff (baseInterval maxBackoff failureCount : Nat) : Nat :=
  min (baseInterval * 2 ^ failureCount) maxBackoff

/-- `BackoffConfig` (second `usePollingWithBackoff` variant). -/
structure BackoffConfig where
  baseDelay : Nat
  maxDelay : Nat
  multiplier : Nat
deriving DecidableEq, Repr

/-- `DEFAULT_BACKOFF = { baseDelay: 2000, maxDelay: 60000, multiplier: 2 }`. -/
def DEFAULT_BACKOFF : BackoffConfig :=
  { baseDelay := 2000, maxDelay := 60000, multiplier := 2 }

/-- `calculateBackoffDelay` (second variant):
`min(config.baseDelay * config.multiplier^(failureCount - 1), config.maxDelay)`. -/
def calculateBackoffDelay (failureCount : Nat) (config : BackoffConfig) : Nat :=
  min (config.baseDelay * config.multiplier ^ (failureCount - 1)) config.maxDelay

/-! ### Sessions and the components' raw-status stop condition -/

/-- The session snapshot the pollers fetch (`SessionStatusData`). -/
structure Session where
  session_id : String
  status_enum : String
  structured_output : Option StructuredOutput
  pull_request_url : Option String
  updated_at : String
deriving DecidableEq, Repr

/-- `TERMINAL_STATUSES` (SessionStatus.tsx / StatusStrip.tsx): raw statuses on
which the components stop polling. -/
def TERMINAL_STATUSES : List String :=
  ["finished", "failed", "cancelled", "expired", "blocked"]

/-- `shouldStopPolling` (SessionStatus.tsx): stop once the raw `status_enum`
is in `TERMINAL_STATUSES`; a missing snapshot never stops. -/
def shouldStopPolling (data : Option Session) : Bool :=
  match data with
  | none => false
  | some d => TERMINAL_STATUSES.contains d.status_enum

/-! ### StatusStrip aggregation -/

/-- `needsAttentionWorkflow` (StatusStrip.tsx):
`executeWorkflow?.needsAttention ? executeWorkflow :
 (scopeWorkflow?.needsAttention ? scopeWorkflow : null)`. -/
def needsAttentionWorkflow (scopeWorkflow executeWorkflow : Option WorkflowStatus) :
    Option WorkflowStatus :=
  if (executeWorkflow.map (fun w => w.needsAttention)).getD false then
    executeWorkflow
  else if (scopeWorkflow.map (fun w => w.needsAttention)).getD false then
    scopeWorkflow
  else
    none

/-- Detail truncation (StatusStrip.tsx):
`detail.length > 50 ? detail.substring(0, 50) + '...' : detail`. -/
def truncateDetail (detail : String) : String :=
  if detail.length > 50 then (detail.take 50) ++ "..." else detail

/-- The rendered attention element of the strip: shown only when the selected
workflow has a truthy (non-empty) `detail`; carries the status label, the
truncated detail shown inline, and the full detail kept in the `title`
attribute. -/
structure AttentionBox where
  labelText : String
  shownDetail : String
  fullDetail : String
deriving DecidableEq, Repr

/-- `StatusStrip`'s attention rendering: the guard is
`needsAttentionWorkflow && needsAttentionWorkflow.detail`. -/
def renderAttention (scopeWorkflow executeWorkflow : Option WorkflowStatus) :
    Option AttentionBox :=
  match needsAttentionWorkflow scopeWorkflow executeWorkflow with
  | none => none
  | some w =>
    match w.detail with
    | none => none
    | some d =>
      if d = "" then none
      else some { labelText := w.label, shownDetail := truncateDetail d, fullDetail := d }

/-! ### First `usePollingWithBackoff` variant (performFetch-based)

Used by SessionStatus.tsx (with `shouldStopPolling`).  React state is applied
sequentially in program order; the browser's pending timeout/interval ids are
carried in `envTimers`/`envTickers`, the hook's refs in
`timeoutRef`/`countdownRef`.  The human-readable error message string is
presentation-only and omitted. -/

/-- `PollingState` of the first hook variant. -/
inductive PollState1 where
  | normal
  | degraded
  | failed
deriving DecidableEq, Repr

/-- `clearTimeout(ref)` / `clearInterval(ref)`: cancels the referenced id if
it is still pending; a `null` ref cancels nothing. -/
def clearRef (env : List Nat) (r : Option Nat) : List Nat :=
  match r with
  | some t => env.filter (fun x => x ≠ t)
  | none => env

/-- State of the first hook variant plus its browser timer environment. -/
structure P1State where
  data : Option Session
  pollingState : PollState1
  isPolling : Bool
  failureCount : Nat
  retryInSeconds : Option Nat
  envTimers : List Nat
  envTickers : List Nat
  timeoutRef : Option Nat
  countdownRef : Option Nat
  nextId : Nat
  mounted : Bool
  fetches : Nat
deriving DecidableEq, Repr

/-- The two `if (ref) clear...` lines used on the success-terminal, threshold
and permanent paths (the refs themselves are not nulled there). -/
def clearBoth1 (s : P1State) : P1State :=
  { s with envTimers := clearRef s.envTimers s.timeoutRef,
           envTickers := clearRef s.envTickers s.countdownRef }

/-- `scheduleNextPoll(interval)` of the first variant: clear both, start the
one-second countdown ticker at `ceil(interval / 1000)`, then set the fetch
timeout. -/
def scheduleNextPoll1 (s : P1State) (interval : Nat) : P1State :=
  let s := clearBoth1 s
  let s := { s with retryInSeconds := some ((interval + 999) / 1000) }
  let s := { s with envTickers := s.nextId :: s.envTickers,
                    countdownRef := some s.nextId, nextId := s.nextId + 1 }
  { s with envTimers := s.nextId :: s.envTimers,
           timeoutRef := some s.nextId, nextId := s.nextId + 1 }

/-- Result of one `fetchFn()` call of the first variant: SessionStatus.tsx's
`fetchSession` resolves with the parsed session or throws a `FetchError`
carrying the HTTP status; a fetch-level network failure is a `TypeError`. -/
inductive FetchOutcome1 where
  | ok (sess : Session)
  | httpError (status : Nat)
  | networkError
deriving DecidableEq, Repr

/-- `isTransientError(status, isNetworkError)` of the first variant. -/
def isTransientError1 (status : Option Nat) (isNetworkError : Bool) : Bool :=
  if isNetworkError then true
  else
    match status with
    | none => false
    | some s => s == 429 || s == 502 || s == 503 || s == 504

/-- The `catch` block of the first variant's `performFetch`: classify the
error, count the failure post-increment, branch on transiency and threshold. -/
def performFetch1Fail (s : P1State) (status : Option Nat) (isNet : Bool) : P1State :=
  let n := s.failureCount + 1
  let s := { s with failureCount := n }
  if isTransientError1 status isNet then
    if n ≥ 5 then
      clearBoth1 { s with pollingState := .failed, retryInSeconds := none }
    else
      scheduleNextPoll1 { s with pollingState := .degraded }
        (calculateBackoff 15000 60000 n)
  else
    clearBoth1 { s with pollingState := .failed, retryInSeconds := none }

/-- `performFetch` of the first variant, with the awaited `fetchFn` outcome
supplied as an argument (at most one fetch is in flight, so issuing the fetch
and processing its result form one atomic step). -/
def performFetch1 (s : P1State) (o : FetchOutcome1) : P1State :=
  let s := { s with fetches := s.fetches + 1 }
  match o with
  | .ok sess =>
    let s := { s with data := some sess, failureCount := 0,
                      pollingState := .normal, retryInSeconds := none }
    if shouldStopPolling (some sess) then
      clearBoth1 { s with isPolling := false }
    else
      scheduleNextPoll1 s 15000
  | .httpError st => performFetch1Fail s (some st) false
  | .networkError => performFetch1Fail s none true

/-- `retry` of the first variant: reset flags then fetch immediately. -/
def retry1 (s : P1State) (o : FetchOutcome1) : P1State :=
  performFetch1
    { s with isPolling := true, pollingState := .normal,
             failureCount := 0, retryInSeconds := none } o

/-- The scheduled timeout of the first variant elapsing: it fires only if
still pending; the callback re-fetches only when `isPollingRef` is set. -/
def autoRefetch1 (s : P1State) (o : FetchOutcome1) : P1State :=
  match s.timeoutRef with
  | some t =>
    if s.envTimers.contains t then
      let s := { s with envTimers := s.envTimers.filter (fun x => x ≠ t) }
      if s.isPolling then performFetch1 s o else s
    else s
  | none => s

/-- Hook state right after mount, before the eager first fetch. -/
def initP1 : P1State :=
  { data := none, pollingState := .normal, isPolling := true, failureCount := 0,
    retryInSeconds := none, envTimers := [], envTickers := [],
    timeoutRef := none, countdownRef := none, nextId := 0,
    mounted := true, fetches := 0 }

/-- Iterate timer-driven refetches of the first variant. -/
def stepsFrom1 (s : P1State) : List FetchOutcome1 → P1State
  | [] => s
  | o :: os => stepsFrom1 (autoRefetch1 s o) os

/-! ### Second `usePollingWithBackoff` variant (poll-based) -/

/-- `TRANSIENT_STATUS_CODES = [429, 502, 503, 504]`. -/
def TRANSIENT_STATUS_CODES : List Nat := [429, 502, 503, 504]

/-- `PERMANENT_STATUS_CODES = [404]`. -/
def PERMANENT_STATUS_CODES : List Nat := [404]

/-- `isTransientError(status)` of the second variant. -/
def isTransientError2 (status : Nat) : Bool :=
  TRANSIENT_STATUS_CODES.contains status

/-- `isPermanentError(status)` of the second variant. -/
def isPermanentError2 (status : Nat) : Bool :=
  PERMANENT_STATUS_CODES.contains status

/-- `PollingState` of the second hook variant. -/
structure PollingState2 where
  isReconnecting : Bool
  isFailed : Bool
  failureCount : Nat
  nextRetryIn : Option Nat
deriving DecidableEq, Repr

/-- State of the second hook variant plus its browser timer environment.
`lastData` is the snapshot the caller keeps through `onSuccess`. -/
structure P2State where
  ps : PollingState2
  isPolling : Bool
  mounted : Bool
  lastData : Option Session
  envTimers : List Nat
  envTickers : List Nat
  timeoutRef : Option Nat
  countdownRef : Option Nat
  nextId : Nat
  fetches : Nat
deriving DecidableEq, Repr

/-- `clearTimers` of the second variant (cancels and nulls both refs). -/
def clearTimers2 (s : P2State) : P2State :=
  { s with envTimers := clearRef s.envTimers s.timeoutRef, timeoutRef := none,
           envTickers := clearRef s.envTickers s.countdownRef, countdownRef := none }

/-- `scheduleNextPoll(delay, isBackoff)` of the second variant: clear both;
when backing off, publish `ceil(delay / 1000)` and start the countdown
interval; then set the fetch timeout. -/
def scheduleNextPoll2 (s : P2State) (delay : Nat) (isBackoff : Bool) : P2State :=
  let s := clearTimers2 s
  let s :=
    if isBackoff then
      let s := { s with ps := { s.ps with nextRetryIn := some ((delay + 999) / 1000) } }
      { s with envTickers := s.nextId :: s.envTickers,
               countdownRef := some s.nextId, nextId := s.nextId + 1 }
    else s
  { s with envTimers := s.nextId :: s.envTimers,
           timeoutRef := some s.nextId, nextId := s.nextId + 1 }

/-- Result of one `fetchFn()` call of the second variant: a resolved
`Response` that is either ok (2xx, with parsed session body) or not, or a
rejected fetch (network failure). -/
inductive FetchOutcome2 where
  | success (sess : Session)
  | httpError (status : Nat)
  | network
deriving DecidableEq, Repr

/-- The callers' `isTerminal` callback (part_000 SessionStatus / part_003
StatusStrip): raw membership in `TERMINAL_STATUSES`. -/
def isTerminal2 (sess : Session) : Bool :=
  TERMINAL_STATUSES.contains sess.status_enum

/-- The transient / generic-catch handling shared by the 429/502/503/504
branch and the `catch` block of `poll` (their bodies are identical). -/
def transientFail2 (s : P2State) : P2State :=
  let n := s.ps.failureCount + 1
  if n ≥ 5 then
    { s with ps := { isReconnecting := false, isFailed := true,
                     failureCount := n, nextRetryIn := none },
             isPolling := false }
  else
    let delay := calculateBackoffDelay n DEFAULT_BACKOFF
    scheduleNextPoll2
      { s with ps := { isReconnecting := true, isFailed := false,
                       failureCount := n, nextRetryIn := some ((delay + 999) / 1000) } }
      delay true

/-- `poll` of the second variant, one atomic fetch-and-classify step.
A non-2xx status that is neither permanent (404) nor transient is thrown and
caught by the surrounding `catch`, which handles it exactly like a transient
failure; a rejected fetch lands in the same `catch`. -/
def poll2 (s : P2State) (o : FetchOutcome2) : P2State :=
  if ¬ s.mounted ∨ ¬ s.isPolling then s
  else
    let s := { s with fetches := s.fetches + 1 }
    match o with
    | .httpError status =>
      if isPermanentError2 status then
        { s with ps := { isReconnecting := false, isFailed := true,
                         failureCount := 5, nextRetryIn := none },
                 isPolling := false }
      else if isTransientError2 status then transientFail2 s
      else transientFail2 s
    | .network => transientFail2 s
    | .success sess =>
      let s := { s with ps := { isReconnecting := false, isFailed := false,
                                failureCount := 0, nextRetryIn := none },
                        lastData := some sess }
      if isTerminal2 sess then { s with isPolling := false }
      else scheduleNextPoll2 s 15000 false

/-- `retry` of the second variant: reset state, resume polling, poll once. -/
def retry2 (s : P2State) (o : FetchOutcome2) : P2State :=
  poll2
    { s with ps := { isReconnecting := false, isFailed := false,
                     failureCount := 0, nextRetryIn := none },
             isPolling := true } o

/-- The countdown interval callback of the second variant: ignored when
unmounted; otherwise the remaining seconds tick down (wall-clock arithmetic
abstracted to one decrement per tick) and the interval clears itself at 0. -/
def tick2 (s : P2State) : P2State :=
  if ¬ s.mounted then s
  else
    match s.countdownRef with
    | none => s
    | some t =>
      if s.envTickers.contains t then
        let r := s.ps.nextRetryIn.getD 1 - 1
        let s := { s with ps := { s.ps with nextRetryIn := some r } }
        if r = 0 then
          { s with envTickers := s.envTickers.filter (fun x => x ≠ t),
                   countdownRef := none }
        else s
      else s

/-- Unmount cleanup of the second variant:
`isMountedRef.current = false; clearTimers()`. -/
def dispose2 (s : P2State) : P2State :=
  clearTimers2 { s with mounted := false }

/-- The scheduled timeout of the second variant elapsing: it fires only if
still pending; the callback polls only when still mounted (`poll2` itself
re-checks the mount/polling guards). -/
def autoRefetch2 (s : P2State) (o : FetchOutcome2) : P2State :=
  match s.timeoutRef with
  | some t =>
    if s.envTimers.contains t then
      poll2 { s with envTimers := s.envTimers.filter (fun x => x ≠ t) } o
    else s
  | none => s

/-- Hook state right after mount, before the eager first poll. -/
def initP2 : P2State :=
  { ps := { isReconnecting := false, isFailed := false,
            failureCount := 0, nextRetryIn := none },
    isPolling := true, mounted := true, lastData := none,
    envTimers := [], envTickers := [], timeoutRef := none, countdownRef := none,
    nextId := 0, fetches := 0 }

/-- Iterate timer-driven refetches of the second variant. -/
def stepsFrom2 (s : P2State) : List FetchOutcome2 → P2State
  | [] => s
  | o :: os => stepsFrom2 (autoRefetch2 s o) os

/-- States of the second variant reachable from mount.  `pollStep` covers the
eager mount-time poll (and over-approximates by allowing a poll at any time;
`poll2`'s own mount/polling guards make extra invocations no-ops), the other
constructors are the timer elapsing, the countdown tick, manual retry and
unmount. -/
inductive Reachable2 : P2State → Prop where
  | init : Reachable2 initP2
  | pollStep (o : FetchOutcome2) {s : P2State} :
      Reachable2 s → Reachable2 (poll2 s o)
  | timerStep (o : FetchOutcome2) {s : P2State} :
      Reachable2 s → Reachable2 (autoRefetch2 s o)
  | tickStep {s : P2State} : Reachable2 s → Reachable2 (tick2 s)
  | retryStep (o : FetchOutcome2) {s : P2State} :
      Reachable2 s → Reachable2 (retry2 s o)
  | disposeStep {s : P2State} : Reachable2 s → Reachable2 (dispose2 s)

/-- A browser timer slot is coherent: either empty, or exactly the one
pending id tracked by the ref. -/
def RefInv (env : List Nat) (r : Option Nat) : Prop :=
  env = [] ∨ ∃ t, r = some t ∧ env = [t]

/-- Timer coherence of a poller state: both slots coherent, and an unmounted
poller has nothing pending. -/
def TimerInv (s : P2State) : Prop :=
  RefInv s.envTimers s.timeoutRef ∧ RefInv s.envTickers s.countdownRef ∧
    (s.mounted = false → s.envTimers = [] ∧ s.envTickers = [])

/-! ### Supporting definitions for the claims -/

/-- The detail of an execute/blocked status as the spec states it: prefer a
non-empty string `blocking_issue`, else a non-empty string `needs_input`,
else `current_task` when `needs_human_input` is `true` (a detail being a
non-empty string), else the default message.  Stated independently of
`getBlockingReason` so the code can be compared against it. -/
def specBlockedDetail (output : Option StructuredOutput) : String :=
  match output with
  | none => "Waiting for user input"
  | some o =>
    match asNonemptyStr (getField o "blocking_issue") with
    | some s => s
    | none =>
      match asNonemptyStr (getField o "needs_input") with
      | some s => s
      | none =>
        match asNonemptyStr (getField o "current_task"),
              getField o "needs_human_input" with
        | some s, some (.boolean true) => s
        | _, _ => "Waiting for user input"

/-- An execute session the platform reports as raw `blocked`. -/
def blockedExecSession : Session :=
  { session_id := "ses_def456", status_enum := "blocked", structured_output := none,
    pull_request_url := none, updated_at := "2024-01-15T10:00:00Z" }

/-- A session still running (non-terminal under every stop condition). -/
def runningSession : Session :=
  { session_id := "ses_abc123", status_enum := "running", structured_output := none,
    pull_request_url := none, updated_at := "2024-01-15T10:00:00Z" }

/-! ### Helper lemmas -/

theorem asNonemptyStr_eq_some {v : Option JVal} {s : String}
    (h : asNonemptyStr v = some s) : s ≠ "" := by
  cases v with
  | none => simp [asNonemptyStr] at h
  | some j =>
    cases j with
    | str t =>
      by_cases ht : t = ""
      · simp [asNonemptyStr, ht] at h
      · simp [asNonemptyStr, ht] at h
        subst h
        exact ht
    | boolean b => simp [asNonemptyStr] at h
    | num n => simp [asNonemptyStr] at h
    | jnull => simp [asNonemptyStr] at h
    | other => simp [asNonemptyStr] at h

theorem blockingDetail_eq (o : Option StructuredOutput) :
    blockingReasonOrDefault (getBlockingReason o) = specBlockedDetail o := by
  cases o with
  | none => rfl
  | some l =>
    simp only [getBlockingReason, specBlockedDetail]
    cases hbi : asNonemptyStr (getField l "blocking_issue") with
    | some s => simp [blockingReasonOrDefault, asNonemptyStr_eq_some hbi]
    | none =>
      cases hni : asNonemptyStr (getField l "needs_input") with
      | some s => simp [blockingReasonOrDefault, asNonemptyStr_eq_some hni]
      | none =>
        cases hct : getField l "current_task" with
        | none => simp [blockingReasonOrDefault, asNonemptyStr]
        | some j =>
          cases j with
          | str t =>
            cases hnh : getField l "needs_human_input" with
            | none => by_cases ht : t = "" <;> simp [blockingReasonOrDefault, asNonemptyStr, ht]
            | some j2 =>
              cases j2 with
              | boolean b =>
                cases b <;> by_cases ht : t = "" <;>
                  simp [blockingReasonOrDefault, asNonemptyStr, ht]
              | str u => by_cases ht : t = "" <;> simp [blockingReasonOrDefault, asNonemptyStr, ht]
              | num n => by_cases ht : t = "" <;> simp [blockingReasonOrDefault, asNonemptyStr, ht]
              | jnull => by_cases ht : t = "" <;> simp [blockingReasonOrDefault, asNonemptyStr, ht]
              | other => by_cases ht : t = "" <;> simp [blockingReasonOrDefault, asNonemptyStr, ht]
          | boolean b => simp [blockingReasonOrDefault, asNonemptyStr]
          | num n => simp [blockingReasonOrDefault, asNonemptyStr]
          | jnull => simp [blockingReasonOrDefault, asNonemptyStr]
          | other => simp [blockingReasonOrDefault, asNonemptyStr]

/-! ### Claim theorems -/

/-- C1: for a scope-kind derivation with raw status `blocked`, a present
(non-null) structured output yields the terminal success status
"Awaiting approval", and an absent structured output yields the non-terminal
active status "Processing…". -/
theorem scope_blocked_reclassification :
    (∀ (o : StructuredOutput) (pr : Option String),
      deriveWorkflowStatus .scope (some "blocked") (some o) pr =
        { label := "Awaiting approval", kind := .success,
          detail := some "Scope complete — ready to execute",
          isTerminal := true, needsAttention := false }) ∧
    (∀ pr : Option String,
      deriveWorkflowStatus .scope (some "blocked") none pr =
        { label := "Processing…", kind := .active, detail := none,
          isTerminal := false, needsAttention := false }) :=
  ⟨fun _ _ => rfl, fun _ => rfl⟩

/-- C6: for an execute-kind derivation with raw status `blocked`, the result
is always the non-terminal warning "Needs input" demanding attention, and its
detail is exactly the spec's blocking-reason precedence (non-empty
`blocking_issue`, else non-empty `needs_input`, else `current_task` when
`needs_human_input` is true, else the default message). -/
theorem execute_blocked_needs_input :
    ∀ (o : Option StructuredOutput) (pr : Option String),
      deriveWorkflowStatus .execute (some "blocked") o pr =
        { label := "Needs input", kind := .warning,
          detail := some (specBlockedDetail o),
          isTerminal := false, needsAttention := true } := by
  intro o pr
  show ({ label := "Needs input", kind := .warning,
          detail := some (blockingReasonOrDefault (getBlockingReason o)),
          isTerminal := false, needsAttention := true } : WorkflowStatus) = _
  rw [blockingDetail_eq]

/-- C10: for scope-kind sessions the derivation is independent of the
`pullRequestUrl` argument and depends on the structured output only through
its presence: any two present structured outputs and any two pull-request
URLs derive identically, for every raw status. -/
theorem scope_derivation_noninterference :
    ∀ (st : Option String) (o1 o2 : StructuredOutput) (p1 p2 : Option String),
      deriveWorkflowStatus .scope st (some o1) p1 =
        deriveWorkflowStatus .scope st (some o2) p2 := by
  intro st o1 o2 p1 p2
  cases st <;> rfl

/-- C7 counterexample: the empty string is a status outside the known set,
yet `deriveWorkflowStatus` does not return the raw-label pending fallback for
it: the `if (!statusEnum)` falsiness guard sends `""` to the terminal
"Not started" status, contradicting the claim's "for every statusEnum string
outside the known set". -/
theorem empty_status_fallback_counterexample :
    ("" ∉ knownStatuses) ∧
    deriveWorkflowStatus .scope (some "") none none =
      { label := "Not started", kind := .pending, detail := none,
        isTerminal := true, needsAttention := false } ∧
    deriveWorkflowStatus .scope (some "") none none ≠
      { label := "", kind := .pending, detail := none,
        isTerminal := false, needsAttention := false } := by
  refine ⟨by decide, rfl, by decide⟩

/-- C7 as amended: `deriveWorkflowStatus` is total; every non-empty status
string outside the known set yields the non-terminal, non-attention,
pending-kind fallback carrying the raw string as label, and a null status —
and likewise the empty string, which the falsiness guard treats the same —
yields exactly the terminal "Not started" status. -/
theorem unknown_status_fallback_amended :
    (∀ st : String, st ≠ "" → st ∉ knownStatuses →
      ∀ (k : SessionKind) (o : Option StructuredOutput) (pr : Option String),
        deriveWorkflowStatus k (some st) o pr =
          { label := st, kind := .pending, detail := none,
            isTerminal := false, needsAttention := false }) ∧
    (∀ (k : SessionKind) (o : Option StructuredOutput) (pr : Option String),
      deriveWorkflowStatus k none o pr =
        { label := "Not started", kind := .pending, detail := none,
          isTerminal := true, needsAttention := false }) ∧
    (∀ (k : SessionKind) (o : Option StructuredOutput) (pr : Option String),
      deriveWorkflowStatus k (some "") o pr =
        { label := "Not started", kind := .pending, detail := none,
          isTerminal := true, needsAttention := false }) := by
  refine ⟨?_, ?_, ?_⟩
  · intro st hne hnotin k o pr
    simp only [knownStatuses, List.mem_cons, List.not_mem_nil, or_false, not_or] at hnotin
    obtain ⟨hp, hq, hr, hb, hpa, hf, hfl, hc, he⟩ := hnotin
    have htr : jsTruthyStr (some st) = true := by
      simp [jsTruthyStr, hne]
    cases k <;>
      simp [deriveWorkflowStatus, deriveScopeStatus, deriveExecuteStatus, htr,
        hp, hq, hr, hb, hpa, hf, hfl, hc, he]
  · intro k o pr
    cases k <;> rfl
  · intro k o pr
    cases k <;> rfl

/-- Witness for the amended C7 at the concrete unknown status "resuming". -/
theorem unknown_status_fallback_amended_witness :
    deriveWorkflowStatus .scope (some "resuming") none none =
      { label := "resuming", kind := .pending, detail := none,
        isTerminal := false, needsAttention := false } :=
  unknown_status_fallback_amended.1 "resuming" (by decide) (by decide) .scope none none

/-- C2: the code stops polling on the raw status list `TERMINAL_STATUSES`
(which contains `blocked`), not on the derived `isTerminal` flag: for an
execute session in raw status `blocked` (derived "Needs input",
non-terminal) and for a scope session in raw status `blocked` without
structured output (derived "Processing…", non-terminal), both poller
variants stop and schedule no further fetch, although the derived
WorkflowStatus says polling should continue. -/
theorem raw_blocked_stop_vs_derived_nonterminal :
    shouldStopPolling (some blockedExecSession) = true ∧
    isTerminal2 blockedExecSession = true ∧
    (deriveWorkflowStatus .execute (some "blocked") none none).isTerminal = false ∧
    (deriveWorkflowStatus .scope (some "blocked") none none).isTerminal = false ∧
    (performFetch1 initP1 (.ok blockedExecSession)).isPolling = false ∧
    (performFetch1 initP1 (.ok blockedExecSession)).envTimers = [] ∧
    (poll2 initP2 (.success blockedExecSession)).isPolling = false ∧
    (poll2 initP2 (.success blockedExecSession)).envTimers = [] := by
  decide

/-- C3 counterexample: HTTP 500 is a non-2xx status outside the transient
set — permanent per the claim — yet the poll-based poller does not become
exhausted on it: after one such failure from a fresh state it is reconnecting
(not failed), has consulted the backoff calculator (2000 ms, published as 2 s)
and has scheduled an automatic retry timer. -/
theorem poll_http500_backoff_counterexample :
    isTransientError2 500 = false ∧
    isPermanentError2 500 = false ∧
    (poll2 initP2 (.httpError 500)).ps.isFailed = false ∧
    (poll2 initP2 (.httpError 500)).ps.isReconnecting = true ∧
    (poll2 initP2 (.httpError 500)).ps.nextRetryIn = some 2 ∧
    (poll2 initP2 (.httpError 500)).envTimers.length = 1 ∧
    (poll2 initP2 (.httpError 500)).isPolling = true := by
  decide

/-- C5: both backoff calculators are monotonically non-decreasing in the
failure count and never exceed their cap, and the second variant's
`calculateBackoffDelay` with the default config (base 2000 ms, multiplier 2,
cap 60000 ms) yields 2000, 4000, 8000, 16000, 32000, 60000 for failure
counts 1 through 6. -/
theorem backoff_monotone_capped :
    (∀ c : BackoffConfig, 1 ≤ c.multiplier →
      ∀ m n : Nat, m ≤ n → calculateBackoffDelay m c ≤ calculateBackoffDelay n c) ∧
    (∀ (n : Nat) (c : BackoffConfig), calculateBackoffDelay n c ≤ c.maxDelay) ∧
    (∀ base maxB m n : Nat, m ≤ n →
      calculateBackoff base maxB m ≤ calculateBackoff base maxB n) ∧
    (∀ base maxB n : Nat, calculateBackoff base maxB n ≤ maxB) ∧
    (calculateBackoffDelay 1 DEFAULT_BACKOFF = 2000 ∧
     calculateBackoffDelay 2 DEFAULT_BACKOFF = 4000 ∧
     calculateBackoffDelay 3 DEFAULT_BACKOFF = 8000 ∧
     calculateBackoffDelay 4 DEFAULT_BACKOFF = 16000 ∧
     calculateBackoffDelay 5 DEFAULT_BACKOFF = 32000 ∧
     calculateBackoffDelay 6 DEFAULT_BACKOFF = 60000) := by
  refine ⟨?_, ?_, ?_, ?_, by decide⟩
  · intro c hc m n h
    exact min_le_min
      (Nat.mul_le_mul_left _ (Nat.pow_le_pow_right hc (Nat.sub_le_sub_right h 1)))
      le_rfl
  · intro n c
    exact min_le_right _ _
  · intro base maxB m n h
    exact min_le_min
      (Nat.mul_le_mul_left _ (Nat.pow_le_pow_right (by norm_num) h))
      le_rfl
  · intro base maxB n
    exact min_le_right _ _

/-- Witness for C5 at concrete failure counts. -/
theorem backoff_monotone_capped_witness :
    (1 ≤ DEFAULT_BACKOFF.multiplier ∧ 2 ≤ 3 ∧
      calculateBackoffDelay 2 DEFAULT_BACKOFF ≤ calculateBackoffDelay 3 DEFAULT_BACKOFF) ∧
    (3 ≤ 7 ∧ calculateBackoff 15000 60000 3 ≤ calculateBackoff 15000 60000 7) ∧
    calculateBackoffDelay 9 DEFAULT_BACKOFF ≤ DEFAULT_BACKOFF.maxDelay :=
  ⟨⟨by decide, by decide,
      backoff_monotone_capped.1 DEFAULT_BACKOFF (by decide) 2 3 (by decide)⟩,
   ⟨by decide, backoff_monotone_capped.2.2.1 15000 60000 3 7 (by decide)⟩,
   backoff_monotone_capped.2.1 9 DEFAULT_BACKOFF⟩

/-- A long blocking detail used to witness the truncation behavior. -/
def egDetail : String :=
  "The agent needs credentials for the staging database before continuing"

/-- The attention-demanding workflow status carrying `egDetail`. -/
def egStatus : WorkflowStatus :=
  { label := "Needs input", kind := .warning, detail := some egDetail,
    isTerminal := false, needsAttention := true }

/-- C9: the aggregator's single attention message is the execute status
whenever the execute status demands attention, the scope status when only
the scope status demands attention, and absent when neither does; and a
detail longer than 50 characters is displayed as its first 50 characters
plus an ellipsis while the full string remains available in the rendered
element's title. -/
theorem aggregator_attention_priority_truncation :
    (∀ (sw : Option WorkflowStatus) (e : WorkflowStatus),
      e.needsAttention = true → needsAttentionWorkflow sw (some e) = some e) ∧
    (∀ (s : WorkflowStatus) (ew : Option WorkflowStatus),
      (ew.map (fun w => w.needsAttention)).getD false = false →
      s.needsAttention = true → needsAttentionWorkflow (some s) ew = some s) ∧
    (∀ sw ew : Option WorkflowStatus,
      (sw.map (fun w => w.needsAttention)).getD false = false →
      (ew.map (fun w => w.needsAttention)).getD false = false →
      needsAttentionWorkflow sw ew = none) ∧
    (∀ (sw : Option WorkflowStatus) (e : WorkflowStatus) (d : String),
      e.needsAttention = true → e.detail = some d → d.length > 50 →
      renderAttention sw (some e) =
        some { labelText := e.label, shownDetail := d.take 50 ++ "...",
               fullDetail := d }) := by
  refine ⟨?_, ?_, ?_, ?_⟩
  · intro sw e he
    simp [needsAttentionWorkflow, he]
  · intro s ew hew hs
    simp [needsAttentionWorkflow, hew, hs]
  · intro sw ew hsw hew
    simp [needsAttentionWorkflow, hsw, hew]
  · intro sw e d he hd hlen
    have hne : d ≠ "" := by
      intro h
      subst h
      simp at hlen
    simp [renderAttention, needsAttentionWorkflow, he, hd, hne, truncateDetail, hlen]

/-- Witness for C9 at a concrete 71-character detail. -/
theorem aggregator_attention_priority_truncation_witness :
    egStatus.needsAttention = true ∧ egStatus.detail = some egDetail ∧
    egDetail.length > 50 ∧
    renderAttention none (some egStatus) =
      some { labelText := egStatus.label, shownDetail := egDetail.take 50 ++ "...",
             fullDetail := egDetail } :=
  ⟨rfl, rfl, by decide,
    aggregator_attention_priority_truncation.2.2.2 none egStatus egDetail rfl rfl (by decide)⟩

/-! ### Classification lemmas -/

theorem transient2_mem {st : Nat} (h : isTransientError2 st = true) :
    st = 429 ∨ st = 502 ∨ st = 503 ∨ st = 504 := by
  simpa [isTransientError2, TRANSIENT_STATUS_CODES] using h

theorem transient2_not_perm {st : Nat} (h : isTransientError2 st = true) :
    isPermanentError2 st = false := by
  rcases transient2_mem h with rfl | rfl | rfl | rfl <;> decide

theorem transient2_to_transient1 {st : Nat} (h : isTransientError2 st = true) :
    isTransientError1 (some st) false = true := by
  rcases transient2_mem h with rfl | rfl | rfl | rfl <;> decide

/-- `poll` on a live poller receiving a non-404 HTTP error: both the
transient branch and the throw-to-catch path execute the same
transient-failure handling. -/
theorem poll2_httpError_nonperm (s : P2State) (st : Nat)
    (hm : s.mounted = true) (hp : s.isPolling = true)
    (hperm : isPermanentError2 st = false) :
    poll2 s (.httpError st) = transientFail2 { s with fetches := s.fetches + 1 } := by
  simp [poll2, hm, hp, hperm]

/-- C3 as amended: the performFetch-based poller turns every non-transient
failure (404, 500, …) into the failed state immediately — failure counted,
no countdown, no timer or ticker allocated; the poll-based poller does so
only for HTTP 404; for any other non-2xx status outside the transient set
the poll-based poller instead schedules an automatic backoff retry exactly
like a transient failure. -/
theorem permanent_failure_immediate_exhaustion_amended :
    (∀ (s : P1State) (st : Nat), isTransientError1 (some st) false = false →
      (performFetch1 s (.httpError st)).pollingState = .failed ∧
      (performFetch1 s (.httpError st)).retryInSeconds = none ∧
      (performFetch1 s (.httpError st)).failureCount = s.failureCount + 1 ∧
      (performFetch1 s (.httpError st)).fetches = s.fetches + 1 ∧
      (performFetch1 s (.httpError st)).nextId = s.nextId) ∧
    (∀ s : P2State, s.mounted = true → s.isPolling = true →
      poll2 s (.httpError 404) =
        { s with ps := { isReconnecting := false, isFailed := true,
                         failureCount := 5, nextRetryIn := none },
                 isPolling := false, fetches := s.fetches + 1 }) ∧
    (∀ (s : P2State) (st : Nat), s.mounted = true → s.isPolling = true →
      s.ps.failureCount = 0 →
      isTransientError2 st = false → isPermanentError2 st = false →
      (poll2 s (.httpError st)).ps.isFailed = false ∧
      (poll2 s (.httpError st)).ps.isReconnecting = true ∧
      (poll2 s (.httpError st)).ps.failureCount = 1 ∧
      (poll2 s (.httpError st)).ps.nextRetryIn = some 2 ∧
      (poll2 s (.httpError st)).timeoutRef = some (s.nextId + 1) ∧
      (s.nextId + 1) ∈ (poll2 s (.httpError st)).envTimers ∧
      (poll2 s (.httpError st)).nextId = s.nextId + 2) := by
  refine ⟨?_, ?_, ?_⟩
  · intro s st ht
    simp [performFetch1, performFetch1Fail, ht, clearBoth1]
  · intro s hm hp
    simp [poll2, hm, hp, isPermanentError2, PERMANENT_STATUS_CODES]
  · intro s st hm hp hc ht hperm
    rw [poll2_httpError_nonperm s st hm hp hperm]
    simp [transientFail2, hc, scheduleNextPoll2, clearTimers2,
      calculateBackoffDelay, DEFAULT_BACKOFF]

/-- Witness for the amended C3: HTTP 400 from fresh pollers — the first
variant fails immediately, the second schedules a backoff retry. -/
theorem permanent_failure_immediate_exhaustion_witness :
    (isTransientError1 (some 400) false = false ∧
      (performFetch1 initP1 (.httpError 400)).pollingState = .failed) ∧
    (initP2.mounted = true ∧ initP2.isPolling = true ∧
      (poll2 initP2 (.httpError 404)).isPolling = false) ∧
    ((poll2 initP2 (.httpError 400)).ps.isReconnecting = true ∧
      (poll2 initP2 (.httpError 400)).ps.nextRetryIn = some 2) :=
  ⟨⟨by decide,
     (permanent_failure_immediate_exhaustion_amended.1 initP1 400 (by decide)).1⟩,
   ⟨rfl, rfl, by
     rw [permanent_failure_immediate_exhaustion_amended.2.1 initP2 rfl rfl]⟩,
   ⟨(permanent_failure_immediate_exhaustion_amended.2.2 initP2 400 rfl rfl rfl
       (by decide) (by decide)).2.1,
    (permanent_failure_immediate_exhaustion_amended.2.2 initP2 400 rfl rfl rfl
       (by decide) (by decide)).2.2.2.1⟩⟩

/-- `performFetch`'s catch block on a transient classification: post-increment
count, threshold check at 5, else backoff schedule. -/
theorem performFetch1Fail_transient (s : P1State) (status : Option Nat) (isNet : Bool)
    (ht : isTransientError1 status isNet = true) :
    performFetch1Fail s status isNet =
      if s.failureCount + 1 ≥ 5 then
        clearBoth1 { s with failureCount := s.failureCount + 1,
                            pollingState := .failed, retryInSeconds := none }
      else
        scheduleNextPoll1 { s with failureCount := s.failureCount + 1,
                                   pollingState := .degraded }
          (calculateBackoff 15000 60000 (s.failureCount + 1)) := by
  simp [performFetch1Fail, ht]

/-- The poll-based poller's state after `k` consecutive transient failures
from mount (for concrete 1 ≤ k ≤ 4): backing off with the k-th backoff delay
published, one pending retry timer and one countdown ticker. -/
def backingOffP2 (k : Nat) : P2State :=
  { ps := { isReconnecting := true, isFailed := false, failureCount := k,
            nextRetryIn := some ((calculateBackoffDelay k DEFAULT_BACKOFF + 999) / 1000) },
    isPolling := true, mounted := true, lastData := none,
    envTimers := [2 * k - 1], envTickers := [2 * k - 2],
    timeoutRef := some (2 * k - 1), countdownRef := some (2 * k - 2),
    nextId := 2 * k, fetches := k }

/-- The poll-based poller's exhausted state after five consecutive transient
failures from mount (the last ticker self-clears only when its countdown
reaches zero, so it is still pending here; no fetch timer remains). -/
def exhaustedP2 : P2State :=
  { ps := { isReconnecting := false, isFailed := true, failureCount := 5,
            nextRetryIn := none },
    isPolling := false, mounted := true, lastData := none,
    envTimers := [], envTickers := [6],
    timeoutRef := some 7, countdownRef := some 6,
    nextId := 8, fetches := 5 }

/-- The performFetch-based poller's state after `k` consecutive transient
failures from mount (for concrete 1 ≤ k ≤ 4). -/
def backingOffP1 (k : Nat) : P1State :=
  { data := none, pollingState := .degraded, isPolling := true, failureCount := k,
    retryInSeconds := some ((calculateBackoff 15000 60000 k + 999) / 1000),
    envTimers := [2 * k - 1], envTickers := [2 * k - 2],
    timeoutRef := some (2 * k - 1), countdownRef := some (2 * k - 2),
    nextId := 2 * k, mounted := true, fetches := k }

/-- The performFetch-based poller's exhausted state after five consecutive
transient failures from mount (its threshold branch clears both timers but
leaves `isPolling` set; no timer remains, so nothing refetches). -/
def exhaustedP1 : P1State :=
  { data := none, pollingState := .failed, isPolling := true, failureCount := 5,
    retryInSeconds := none, envTimers := [], envTickers := [],
    timeoutRef := some 7, countdownRef := some 6, nextId := 8,
    mounted := true, fetches := 5 }

/-- C4: in both poller variants, five consecutive transient-classified
failures from mount (threshold 5, compared post-increment) reach the
exhausted/failed state with failure count 5 and no pending fetch timer, so
no sixth automatic fetch can occur; `retry()` from that state resets the
failure count to 0, clears the failed flag, immediately issues exactly one
fetch, and on a successful non-terminal response returns to normal polling. -/
theorem transient_threshold_exhaustion_and_retry
    (st1 st2 st3 st4 st5 : Nat)
    (h1 : isTransientError2 st1 = true) (h2 : isTransientError2 st2 = true)
    (h3 : isTransientError2 st3 = true) (h4 : isTransientError2 st4 = true)
    (h5 : isTransientError2 st5 = true) :
    stepsFrom2 (poll2 initP2 (.httpError st1))
      [.httpError st2, .httpError st3, .httpError st4, .httpError st5] = exhaustedP2 ∧
    exhaustedP2.ps.isFailed = true ∧
    exhaustedP2.ps.failureCount = 5 ∧
    exhaustedP2.isPolling = false ∧
    exhaustedP2.envTimers = [] ∧
    (∀ o : FetchOutcome2, poll2 exhaustedP2 o = exhaustedP2 ∧
      autoRefetch2 exhaustedP2 o = exhaustedP2) ∧
    ((retry2 exhaustedP2 (.success runningSession)).fetches = exhaustedP2.fetches + 1 ∧
      (retry2 exhaustedP2 (.success runningSession)).ps.isFailed = false ∧
      (retry2 exhaustedP2 (.success runningSession)).ps.isReconnecting = false ∧
      (retry2 exhaustedP2 (.success runningSession)).ps.failureCount = 0 ∧
      (retry2 exhaustedP2 (.success runningSession)).isPolling = true ∧
      (retry2 exhaustedP2 (.success runningSession)).ps.nextRetryIn = none ∧
      (retry2 exhaustedP2 (.success runningSession)).envTimers.length = 1) ∧
    stepsFrom1 (performFetch1 initP1 (.httpError st1))
      [.httpError st2, .httpError st3, .httpError st4, .httpError st5] = exhaustedP1 ∧
    exhaustedP1.pollingState = .failed ∧
    exhaustedP1.failureCount = 5 ∧
    exhaustedP1.envTimers = [] ∧
    (∀ o : FetchOutcome1, autoRefetch1 exhaustedP1 o = exhaustedP1) ∧
    ((retry1 exhaustedP1 (.ok runningSession)).fetches = exhaustedP1.fetches + 1 ∧
      (retry1 exhaustedP1 (.ok runningSession)).pollingState = .normal ∧
      (retry1 exhaustedP1 (.ok runningSession)).failureCount = 0 ∧
      (retry1 exhaustedP1 (.ok runningSession)).isPolling = true ∧
      (retry1 exhaustedP1 (.ok runningSession)).envTimers.length = 1) := by
  have hp1 := transient2_not_perm h1
  have hp2 := transient2_not_perm h2
  have hp3 := transient2_not_perm h3
  have hp4 := transient2_not_perm h4
  have hp5 := transient2_not_perm h5
  have q1 := transient2_to_transient1 h1
  have q2 := transient2_to_transient1 h2
  have q3 := transient2_to_transient1 h3
  have q4 := transient2_to_transient1 h4
  have q5 := transient2_to_transient1 h5
  have e1 : poll2 initP2 (.httpError st1) = backingOffP2 1 := by
    rw [poll2_httpError_nonperm initP2 st1 rfl rfl hp1]
    decide
  have e2 : autoRefetch2 (backingOffP2 1) (.httpError st2) = backingOffP2 2 := by
    rw [show autoRefetch2 (backingOffP2 1) (.httpError st2) =
          poll2 { backingOffP2 1 with envTimers := [] } (.httpError st2) from rfl,
        poll2_httpError_nonperm _ st2 rfl rfl hp2]
    decide
  have e3 : autoRefetch2 (backingOffP2 2) (.httpError st3) = backingOffP2 3 := by
    rw [show autoRefetch2 (backingOffP2 2) (.httpError st3) =
          poll2 { backingOffP2 2 with envTimers := [] } (.httpError st3) from rfl,
        poll2_httpError_nonperm _ st3 rfl rfl hp3]
    decide
  have e4 : autoRefetch2 (backingOffP2 3) (.httpError st4) = backingOffP2 4 := by
    rw [show autoRefetch2 (backingOffP2 3) (.httpError st4) =
          poll2 { backingOffP2 3 with envTimers := [] } (.httpError st4) from rfl,
        poll2_httpError_nonperm _ st4 rfl rfl hp4]
    decide
  have e5 : autoRefetch2 (backingOffP2 4) (.httpError st5) = exhaustedP2 := by
    rw [show autoRefetch2 (backingOffP2 4) (.httpError st5) =
          poll2 { backingOffP2 4 with envTimers := [] } (.httpError st5) from rfl,
        poll2_httpError_nonperm _ st5 rfl rfl hp5]
    decide
  have f1 : performFetch1 initP1 (.httpError st1) = backingOffP1 1 := by
    rw [show performFetch1 initP1 (.httpError st1) =
          performFetch1Fail { initP1 with fetches := 1 } (some st1) false from rfl,
        performFetch1Fail_transient _ _ _ q1]
    decide
  have f2 : autoRefetch1 (backingOffP1 1) (.httpError st2) = backingOffP1 2 := by
    rw [show autoRefetch1 (backingOffP1 1) (.httpError st2) =
          performFetch1Fail { backingOffP1 1 with envTimers := [], fetches := 2 }
            (some st2) false from rfl,
        performFetch1Fail_transient _ _ _ q2]
    decide
  have f3 : autoRefetch1 (backingOffP1 2) (.httpError st3) = backingOffP1 3 := by
    rw [show autoRefetch1 (backingOffP1 2) (.httpError st3) =
          performFetch1Fail { backingOffP1 2 with envTimers := [], fetches := 3 }
            (some st3) false from rfl,
        performFetch1Fail_transient _ _ _ q3]
    decide
  have f4 : autoRefetch1 (backingOffP1 3) (.httpError st4) = backingOffP1 4 := by
    rw [show autoRefetch1 (backingOffP1 3) (.httpError st4) =
          performFetch1Fail { backingOffP1 3 with envTimers := [], fetches := 4 }
            (some st4) false from rfl,
        performFetch1Fail_transient _ _ _ q4]
    decide
  have f5 : autoRefetch1 (backingOffP1 4) (.httpError st5) = exhaustedP1 := by
    rw [show autoRefetch1 (backingOffP1 4) (.httpError st5) =
          performFetch1Fail { backingOffP1 4 with envTimers := [], fetches := 5 }
            (some st5) false from rfl,
        performFetch1Fail_transient _ _ _ q5]
    decide
  refine ⟨?_, by decide, by decide, by decide, by decide, ?_, by decide, ?_,
    by decide, by decide, by decide, ?_, by decide⟩
  · rw [e1]
    simp only [stepsFrom2]
    rw [e2, e3, e4, e5]
  · intro o
    exact ⟨by simp [poll2, exhaustedP2], by simp [autoRefetch2, exhaustedP2]⟩
  · rw [f1]
    simp only [stepsFrom1]
    rw [f2, f3, f4, f5]
  · intro o
    simp [autoRefetch1, exhaustedP1]

/-- Witness for C4 at the concrete transient statuses 503, 429, 502, 504,
503. -/
theorem transient_threshold_exhaustion_and_retry_witness :
    isTransientError2 503 = true ∧ isTransientError2 429 = true ∧
    isTransientError2 502 = true ∧ isTransientError2 504 = true ∧
    stepsFrom2 (poll2 initP2 (.httpError 503))
      [.httpError 429, .httpError 502, .httpError 504, .httpError 503] = exhaustedP2 ∧
    stepsFrom1 (performFetch1 initP1 (.httpError 503))
      [.httpError 429, .httpError 502, .httpError 504, .httpError 503] = exhaustedP1 := by
  have h := transient_threshold_exhaustion_and_retry 503 429 502 504 503
    (by decide) (by decide) (by decide) (by decide) (by decide)
  obtain ⟨c1, _, _, _, _, _, _, c8, _⟩ := h
  exact ⟨by decide, by decide, by decide, by decide, c1, c8⟩

/-! ### Timer-coherence invariant of the poll-based poller -/

theorem refInv_length {env : List Nat} {r : Option Nat} (h : RefInv env r) :
    env.length ≤ 1 := by
  rcases h with h | ⟨t, _, he⟩
  · simp [h]
  · simp [he]

theorem refInv_clear {env : List Nat} {r : Option Nat} (h : RefInv env r) :
    clearRef env r = [] := by
  rcases h with h | ⟨t, hr, he⟩
  · subst h
    cases r <;> simp [clearRef]
  · subst hr
    subst he
    simp [clearRef]

theorem refInv_filter {env : List Nat} {r : Option Nat} (h : RefInv env r) (t : Nat) :
    RefInv (env.filter (fun x => x ≠ t)) r := by
  rcases h with h | ⟨u, hr, he⟩
  · subst h
    exact Or.inl rfl
  · subst he
    by_cases hu : u = t
    · subst hu
      exact Or.inl (by simp)
    · exact Or.inr ⟨u, hr, by simp [hu]⟩

theorem timerInv_scheduleNextPoll2 {s : P2State} (h : TimerInv s)
    (hm : s.mounted = true) (d : Nat) (b : Bool) :
    TimerInv (scheduleNextPoll2 s d b) := by
  obtain ⟨h1, h2, _⟩ := h
  have hc1 := refInv_clear h1
  have hc2 := refInv_clear h2
  cases b <;>
    exact ⟨Or.inr ⟨_, rfl, by simp [scheduleNextPoll2, clearTimers2, hc1]⟩,
           by simp [scheduleNextPoll2, clearTimers2, hc2, RefInv],
           by simp [scheduleNextPoll2, clearTimers2, hm]⟩

/-- A state whose component is still mounted satisfies the timer invariant
as soon as both slots are coherent. -/
theorem timerInv_of_mounted {s : P2State} (h1 : RefInv s.envTimers s.timeoutRef)
    (h2 : RefInv s.envTickers s.countdownRef) (hm : s.mounted = true) :
    TimerInv s :=
  ⟨h1, h2, fun hf => absurd (hm.symm.trans hf) (by decide)⟩

theorem poll2_guard (s : P2State) (o : FetchOutcome2)
    (hg : ¬ s.mounted ∨ ¬ s.isPolling) : poll2 s o = s := by
  unfold poll2
  rw [if_pos hg]

theorem poll2_perm (s : P2State) (status : Nat) (hm : s.mounted = true)
    (hp : s.isPolling = true) (hperm : isPermanentError2 status = true) :
    poll2 s (.httpError status) =
      { s with ps := { isReconnecting := false, isFailed := true,
                       failureCount := 5, nextRetryIn := none },
               isPolling := false, fetches := s.fetches + 1 } := by
  simp [poll2, hm, hp, hperm]

theorem poll2_network (s : P2State) (hm : s.mounted = true)
    (hp : s.isPolling = true) :
    poll2 s .network = transientFail2 { s with fetches := s.fetches + 1 } := by
  simp [poll2, hm, hp]

theorem poll2_success_terminal (s : P2State) (sess : Session)
    (hm : s.mounted = true) (hp : s.isPolling = true)
    (ht : isTerminal2 sess = true) :
    poll2 s (.success sess) =
      { s with ps := { isReconnecting := false, isFailed := false,
                       failureCount := 0, nextRetryIn := none },
               lastData := some sess, isPolling := false,
               fetches := s.fetches + 1 } := by
  simp [poll2, hm, hp, ht]

theorem poll2_success_continue (s : P2State) (sess : Session)
    (hm : s.mounted = true) (hp : s.isPolling = true)
    (ht : isTerminal2 sess = false) :
    poll2 s (.success sess) =
      scheduleNextPoll2
        { s with ps := { isReconnecting := false, isFailed := false,
                         failureCount := 0, nextRetryIn := none },
                 lastData := some sess, fetches := s.fetches + 1 } 15000 false := by
  simp [poll2, hm, hp, ht]

theorem transientFail2_threshold (s : P2State) (hn : s.ps.failureCount + 1 ≥ 5) :
    transientFail2 s =
      { s with ps := { isReconnecting := false, isFailed := true,
                       failureCount := s.ps.failureCount + 1, nextRetryIn := none },
               isPolling := false } := by
  simp [transientFail2, hn]

theorem transientFail2_backoff (s : P2State) (hn : ¬ s.ps.failureCount + 1 ≥ 5) :
    transientFail2 s =
      scheduleNextPoll2
        { s with ps := { isReconnecting := true, isFailed := false,
                         failureCount := s.ps.failureCount + 1,
                         nextRetryIn := some ((calculateBackoffDelay
                           (s.ps.failureCount + 1) DEFAULT_BACKOFF + 999) / 1000) } }
        (calculateBackoffDelay (s.ps.failureCount + 1) DEFAULT_BACKOFF) true := by
  simp [transientFail2, hn]

theorem timerInv_transientFail2 {s : P2State} (h : TimerInv s)
    (hm : s.mounted = true) : TimerInv (transientFail2 s) := by
  by_cases hn : s.ps.failureCount + 1 ≥ 5
  · rw [transientFail2_threshold s hn]
    exact timerInv_of_mounted h.1 h.2.1 hm
  · rw [transientFail2_backoff s hn]
    refine timerInv_scheduleNextPoll2 ?_ ?_ _ _
    · exact timerInv_of_mounted h.1 h.2.1 hm
    · exact hm

theorem timerInv_poll2 {s : P2State} (h : TimerInv s) (o : FetchOutcome2) :
    TimerInv (poll2 s o) := by
  by_cases hg : ¬ s.mounted ∨ ¬ s.isPolling
  · rw [poll2_guard s o hg]
    exact h
  · push_neg at hg
    have hm : s.mounted = true := hg.1
    have hp : s.isPolling = true := hg.2
    have hbump : TimerInv ({ s with fetches := s.fetches + 1 } : P2State) :=
      timerInv_of_mounted h.1 h.2.1 hm
    cases o with
    | httpError status =>
      by_cases hperm : isPermanentError2 status = true
      · rw [poll2_perm s status hm hp hperm]
        exact timerInv_of_mounted h.1 h.2.1 hm
      · rw [poll2_httpError_nonperm s status hm hp (by simpa using hperm)]
        exact timerInv_transientFail2 hbump hm
    | network =>
      rw [poll2_network s hm hp]
      exact timerInv_transientFail2 hbump hm
    | success sess =>
      by_cases ht : isTerminal2 sess = true
      · rw [poll2_success_terminal s sess hm hp ht]
        exact timerInv_of_mounted h.1 h.2.1 hm
      · rw [poll2_success_continue s sess hm hp (by simpa using ht)]
        refine timerInv_scheduleNextPoll2 ?_ ?_ _ _
        · exact timerInv_of_mounted h.1 h.2.1 hm
        · exact hm

theorem autoRefetch2_fire (s : P2State) (o : FetchOutcome2) (t : Nat)
    (hr : s.timeoutRef = some t) (hc : t ∈ s.envTimers) :
    autoRefetch2 s o =
      poll2 { s with envTimers := s.envTimers.filter (fun x => x ≠ t) } o := by
  simp [autoRefetch2, hr, hc]

theorem autoRefetch2_stale (s : P2State) (o : FetchOutcome2) (t : Nat)
    (hr : s.timeoutRef = some t) (hc : t ∉ s.envTimers) :
    autoRefetch2 s o = s := by
  simp [autoRefetch2, hr, hc]

theorem autoRefetch2_none (s : P2State) (o : FetchOutcome2)
    (hr : s.timeoutRef = none) : autoRefetch2 s o = s := by
  simp [autoRefetch2, hr]

theorem timerInv_autoRefetch2 {s : P2State} (h : TimerInv s) (o : FetchOutcome2) :
    TimerInv (autoRefetch2 s o) := by
  cases hr : s.timeoutRef with
  | none =>
    rw [autoRefetch2_none s o hr]
    exact h
  | some t =>
    by_cases hc : t ∈ s.envTimers
    · rw [autoRefetch2_fire s o t hr hc]
      apply timerInv_poll2
      refine ⟨refInv_filter h.1 t, h.2.1, ?_⟩
      intro hmf
      refine ⟨?_, (h.2.2 hmf).2⟩
      rw [(h.2.2 hmf).1]
      rfl
    · rw [autoRefetch2_stale s o t hr hc]
      exact h

theorem tick2_unmounted (s : P2State) (hm : s.mounted = false) : tick2 s = s := by
  simp [tick2, hm]

theorem tick2_none (s : P2State) (hr : s.countdownRef = none) : tick2 s = s := by
  unfold tick2
  rw [hr]
  simp

theorem tick2_fire_zero (s : P2State) (t : Nat) (hm : s.mounted = true)
    (hr : s.countdownRef = some t) (hc : t ∈ s.envTickers)
    (hz : s.ps.nextRetryIn.getD 1 - 1 = 0) :
    tick2 s = { s with ps := { s.ps with nextRetryIn := some 0 },
                       envTickers := s.envTickers.filter (fun x => x ≠ t),
                       countdownRef := none } := by
  simp [tick2, hm, hr, hc, hz]

theorem tick2_fire_pos (s : P2State) (t : Nat) (hm : s.mounted = true)
    (hr : s.countdownRef = some t) (hc : t ∈ s.envTickers)
    (hz : ¬ s.ps.nextRetryIn.getD 1 - 1 = 0) :
    tick2 s =
      { s with ps := { s.ps with
                       nextRetryIn := some (s.ps.nextRetryIn.getD 1 - 1) } } := by
  simp [tick2, hm, hr, hc, hz]

theorem tick2_stale (s : P2State) (t : Nat) (hm : s.mounted = true)
    (hr : s.countdownRef = some t) (hc : t ∉ s.envTickers) :
    tick2 s = s := by
  simp [tick2, hm, hr, hc]

/-- The self-clearing countdown interval leaves nothing pending: from a
coherent ticker slot tracking `t`, removing `t` empties the slot. -/
theorem refInv_self_filter {env : List Nat} {t : Nat}
    (h : RefInv env (some t)) : env.filter (fun x => x ≠ t) = [] := by
  rcases h with he | ⟨u, hu, he⟩
  · simp [he]
  · injection hu with h2
    subst h2
    simp [he]

theorem timerInv_tick2 {s : P2State} (h : TimerInv s) : TimerInv (tick2 s) := by
  by_cases hm : s.mounted = true
  · cases hr : s.countdownRef with
    | none =>
      rw [tick2_none s hr]
      exact h
    | some t =>
      by_cases hc : t ∈ s.envTickers
      · by_cases hz : s.ps.nextRetryIn.getD 1 - 1 = 0
        · rw [tick2_fire_zero s t hm hr hc hz]
          refine timerInv_of_mounted h.1 ?_ hm
          exact Or.inl (refInv_self_filter (hr ▸ h.2.1))
        · rw [tick2_fire_pos s t hm hr hc hz]
          exact timerInv_of_mounted h.1 h.2.1 hm
      · rw [tick2_stale s t hm hr hc]
        exact h
  · have hmf : s.mounted = false := by
      cases hb : s.mounted
      · rfl
      · exact absurd hb hm
    rw [tick2_unmounted s hmf]
    exact h

theorem timerInv_dispose2 {s : P2State} (h : TimerInv s) : TimerInv (dispose2 s) := by
  have hc1 := refInv_clear h.1
  have hc2 := refInv_clear h.2.1
  refine ⟨?_, ?_, fun _ => ⟨?_, ?_⟩⟩ <;>
    simp [dispose2, clearTimers2, hc1, hc2, RefInv]

theorem timerInv_retry2 {s : P2State} (h : TimerInv s) (o : FetchOutcome2) :
    TimerInv (retry2 s o) := by
  unfold retry2
  apply timerInv_poll2
  exact ⟨h.1, h.2.1, fun hmf => h.2.2 hmf⟩

theorem reachable2_timerInv {s : P2State} (h : Reachable2 s) : TimerInv s := by
  induction h with
  | init => exact ⟨Or.inl rfl, Or.inl rfl, fun _ => ⟨rfl, rfl⟩⟩
  | pollStep o _ ih => exact timerInv_poll2 ih o
  | timerStep o _ ih => exact timerInv_autoRefetch2 ih o
  | tickStep _ ih => exact timerInv_tick2 ih
  | retryStep o _ ih => exact timerInv_retry2 ih o
  | disposeStep _ ih => exact timerInv_dispose2 ih

/-- C8: in every reachable state the poll-based poller holds at most one
pending fetch timer and at most one countdown ticker; disposing it from any
reachable state (including BackingOff) cancels both; and once unmounted it
holds no timers and no step — spurious poll, manual retry or countdown
tick — produces any further observable fetch. -/
theorem poller_single_timer_and_dispose :
    ∀ s : P2State, Reachable2 s →
      (s.envTimers.length ≤ 1 ∧ s.envTickers.length ≤ 1) ∧
      ((dispose2 s).envTimers = [] ∧ (dispose2 s).envTickers = [] ∧
        (dispose2 s).mounted = false) ∧
      (s.mounted = false →
        s.envTimers = [] ∧ s.envTickers = [] ∧
        ∀ o : FetchOutcome2,
          (poll2 s o).fetches = s.fetches ∧
          (retry2 s o).fetches = s.fetches ∧
          tick2 s = s) := by
  intro s h
  have hi := reachable2_timerInv h
  refine ⟨⟨refInv_length hi.1, refInv_length hi.2.1⟩, ?_, ?_⟩
  · exact ⟨by simp [dispose2, clearTimers2, refInv_clear hi.1],
           by simp [dispose2, clearTimers2, refInv_clear hi.2.1],
           by simp [dispose2, clearTimers2]⟩
  · intro hm
    refine ⟨(hi.2.2 hm).1, (hi.2.2 hm).2, ?_⟩
    intro o
    refine ⟨by simp [poll2, hm], by simp [retry2, poll2, hm], by simp [tick2, hm]⟩

/-- Witness for C8 at a concrete reachable BackingOff state and its
disposal. -/
theorem poller_single_timer_and_dispose_witness :
    ((poll2 initP2 (.httpError 503)).ps.isReconnecting = true ∧
      (poll2 initP2 (.httpError 503)).envTimers.length ≤ 1 ∧
      (poll2 initP2 (.httpError 503)).envTickers.length ≤ 1) ∧
    ((dispose2 (poll2 initP2 (.httpError 503))).envTimers = [] ∧
      (dispose2 (poll2 initP2 (.httpError 503))).envTickers = []) := by
  have h := poller_single_timer_and_dispose (poll2 initP2 (.httpError 503))
    (Reachable2.pollStep _ Reachable2.init)
  exact ⟨⟨by decide, h.1.1, h.1.2⟩, ⟨h.2.1.1, h.2.1.2.1⟩⟩

end DevinAutomation
